import Mathlib

/-!
Shallow embedding of the BioFeedback-VR biofeedback server
(`src/PythonBiofeedbackServer/src/sensors.py`,
 `src/PythonBiofeedbackServer/src/sim_connector.py`,
 `src/PythonBiofeedbackServer/src/biofeedback_server.py`).

Modelling conventions:
* Python floats holding physiological values (HR, EDA, HRV, stress) are
  modelled as real numbers; virtual time and the stream frequency/interval
  are modelled as rationals (they are only ever compared against and
  combined with rational constants).
* `np.random.normal(0, sigma)` draws are modelled as arbitrary real
  parameters (`noise`): every theorem quantifying over them holds for any
  realised draw.
* The module-level mutable globals of `sensors.py` form the `SimState`
  record; each Python function that mutates globals becomes a function
  from `SimState` to `SimState` (possibly paired with a return value).
* A raised Python exception aborts the rest of the function body; side
  effects performed before the raise persist.  This is modelled by
  returning the partially-updated state together with `Option`/flag data.
-/

namespace Biofeedback

/-- The four simulation scenarios of `sensors.py` (`_scenario` global). -/
inductive Scenario
  | baseline
  | stress_buildup
  | recovery
  | mixed
deriving DecidableEq, Repr

/-- Embeds `sensors.clamp`: `max(min_val, min(value, max_val))`. -/
def clamp (value minVal maxVal : ℝ) : ℝ :=
  max minVal (min value maxVal)

theorem clamp_le {value minVal maxVal : ℝ} (h : minVal ≤ maxVal) :
    clamp value minVal maxVal ≤ maxVal :=
  max_le h (min_le_right _ _)

theorem le_clamp (value minVal maxVal : ℝ) :
    minVal ≤ clamp value minVal maxVal :=
  le_max_left _ _

/-- Embeds `sensors.compute_stress_index` (sensors.py lines 259-299).  The Python
signature allows `hrv=None` (in which case it calls `get_hrv()`); the server
always passes a concrete `hrv`, which is the case embedded here. -/
noncomputable def compute_stress_index (hr eda hrv w_hr w_eda w_hrv : ℝ) : ℝ :=
  let norm_hr := clamp ((hr - 45) / (180 - 45)) 0 1
  let norm_eda := clamp (eda / 10) 0 1
  let norm_hrv := clamp (1 - ((hrv - 10) / (200 - 10))) 0 1
  (w_hr * norm_hr + w_eda * norm_eda + w_hrv * norm_hrv) * 100

/-- The value computed by `sensors.get_hr` (sensors.py lines 53-130) before
it is pushed onto the HR history: per-scenario base + slow variation + fast
variation + noise, clamped to [50, 180].  `t` is the virtual time
`_current_time`, `noise` the realised `np.random.normal` draw; the baseline
heart rate `_base_hr` is the constant 75 (never mutated in the repository). -/
noncomputable def get_hr_value (sc : Scenario) (t noise : ℝ) : ℝ :=
  let raw :=
    match sc with
    | .baseline =>
        75 + 3 * Real.sin (2 * Real.pi * t / 45)
           + 2 * Real.sin (2 * Real.pi * t / 12) + noise
    | .stress_buildup =>
        (75 + min (t / 30) 1 * 20)
           + 2 * Real.sin (2 * Real.pi * t / 30)
           + 3 * Real.sin (2 * Real.pi * t / 8) + noise
    | .recovery =>
        if t < 10 then
          (75 + (1 - t / 10) * 15)
             + 3 * Real.sin (2 * Real.pi * t / 25)
             + 2 * Real.sin (2 * Real.pi * t / 10) + noise
        else
          75 + 2 * Real.sin (2 * Real.pi * t / 40)
             + 1.5 * Real.sin (2 * Real.pi * t / 12) + noise
    | .mixed =>
        if t < 20 then
          75 + 3 * Real.sin (2 * Real.pi * t / 45)
             + 2 * Real.sin (2 * Real.pi * t / 12) + noise
        else if t < 40 then
          (75 + ((t - 20) / 20) * 25)
             + 4 * Real.sin (2 * Real.pi * t / 20)
             + 3 * Real.sin (2 * Real.pi * t / 6) + noise
        else
          (75 + (1 - min ((t - 40) / 20) 1) * 20)
             + 2 * Real.sin (2 * Real.pi * t / 35)
             + 2 * Real.sin (2 * Real.pi * t / 12) + noise
  clamp raw 50 180

/-- Embeds `sensors.get_eda` (sensors.py lines 142-220): per-scenario base + slow
variation + medium variation + noise, clamped to [0.1, 10].  The baseline
EDA `_base_eda` is the constant 2.0.  `get_eda` mutates no state. -/
noncomputable def get_eda_value (sc : Scenario) (t noise : ℝ) : ℝ :=
  let raw :=
    match sc with
    | .baseline =>
        2 + 0.3 * Real.sin (2 * Real.pi * t / 60)
          + 0.2 * Real.sin (2 * Real.pi * t / 25) + noise
    | .stress_buildup =>
        (2 + min (t / 45) 1 * 2)
          + 0.4 * Real.sin (2 * Real.pi * t / 40)
          + 0.3 * Real.sin (2 * Real.pi * t / 15) + noise
    | .recovery =>
        if t < 20 then
          (2 + (1 - t / 20) * 1.8)
            + 0.4 * Real.sin (2 * Real.pi * t / 35)
            + 0.25 * Real.sin (2 * Real.pi * t / 18) + noise
        else
          2 + 0.25 * Real.sin (2 * Real.pi * t / 55)
            + 0.15 * Real.sin (2 * Real.pi * t / 28) + noise
    | .mixed =>
        if t < 20 then
          2 + 0.3 * Real.sin (2 * Real.pi * t / 60)
            + 0.2 * Real.sin (2 * Real.pi * t / 25) + noise
        else if t < 40 then
          (2 + ((t - 20) / 30) * 2.5)
            + 0.5 * Real.sin (2 * Real.pi * t / 30)
            + 0.4 * Real.sin (2 * Real.pi * t / 12) + noise
        else
          (2 + (1 - min ((t - 40) / 30) 1) * 2.2)
            + 0.35 * Real.sin (2 * Real.pi * t / 45)
            + 0.25 * Real.sin (2 * Real.pi * t / 20) + noise
  clamp raw 0.1 10

/-- The HR-history push at the end of `sensors.get_hr` (lines 132-138):
append, then keep only the last `_hrv_window_size = 20` entries. -/
def push_hr_history (h : List ℝ) (hr : ℝ) : List ℝ :=
  let h2 := h ++ [hr]
  if h2.length > 20 then h2.drop (h2.length - 20) else h2

/-- Population standard deviation of a list, as the spec words it
("computes their population standard deviation (SDNN)"). -/
noncomputable def popStdDev (l : List ℝ) : ℝ :=
  Real.sqrt (((l.map fun x => (x - l.sum / (l.length : ℝ)) ^ 2).sum) / (l.length : ℝ))

/-- Embeds `sensors.get_hrv` (sensors.py lines 222-257) as a function of the HR
history it reads: default 50.0 below 2 samples, otherwise the SDNN of the
absolute consecutive RR-interval differences, clamped to [10, 200]
(`variance ** 0.5` on a non-negative float is the square root). -/
noncomputable def get_hrv_of (h : List ℝ) : ℝ :=
  if h.length < 2 then 50
  else
    let rr := h.map fun hr => 60000 / hr
    let nn := List.zipWith (fun a b => |b - a|) rr rr.tail
    if nn.length = 0 then 50
    else
      let mean_nn := nn.sum / (nn.length : ℝ)
      let variance := ((nn.map fun x => (x - mean_nn) ^ 2).sum) / (nn.length : ℝ)
      let sdnn := Real.sqrt variance
      clamp sdnn 10 200

/-- One entry of `_baseline_samples` (sensors.py
`collect_baseline_sample`): `{'time', 'hr', 'eda', 'hrv'}`. -/
structure BaselineSample where
  time : ℚ
  hr : ℝ
  eda : ℝ
  hrv : ℝ

/-- The module-level mutable globals of `sensors.py`: `_current_time`,
`_scenario`, `_hr_history`, `_baseline_computed`, `_baseline_hr`,
`_baseline_eda`, `_baseline_hrv`, `_baseline_samples`.
(`_base_hr`, `_base_eda`, `_hrv_window_size`, `_baseline_window_seconds`,
`_resting_period_seconds` are never mutated and are embedded as the
constants 75, 2, 20, 60, 180.) -/
structure SimState where
  current_time : ℚ
  scenario : Scenario
  hr_history : List ℝ
  baseline_computed : Bool
  baseline_hr : ℝ
  baseline_eda : ℝ
  baseline_hrv : ℝ
  baseline_samples : List BaselineSample

/-- Embeds `sensors.is_in_resting_period`: `_current_time < 180`. -/
def is_in_resting_period (s : SimState) : Bool :=
  s.current_time < 180

/-- Embeds `sensors.is_in_baseline_window`: `180 <= _current_time < 180 + 60`. -/
def is_in_baseline_window (s : SimState) : Bool :=
  180 ≤ s.current_time && s.current_time < 240

/-- Embeds `sensors.should_collect_baseline_sample`:
`is_in_baseline_window() and not _baseline_computed`. -/
def should_collect_baseline_sample (s : SimState) : Bool :=
  is_in_baseline_window s && !s.baseline_computed

/-- Embeds `sensors.collect_baseline_sample(hr, eda, hrv)`: append one sample
tagged with the current virtual time to `_baseline_samples`. -/
def collect_baseline_sample (s : SimState) (hr eda hrv : ℝ) : SimState :=
  { s with baseline_samples := s.baseline_samples ++ [⟨s.current_time, hr, eda, hrv⟩] }

/-- Embeds `sensors.compute_baseline_values` (sensors.py lines 369-390): returns
`False` without touching state when fewer than 10 samples were collected;
otherwise sets the three baseline values to the sample averages, sets
`_baseline_computed = True` and returns `True`. -/
noncomputable def compute_baseline_values (s : SimState) : SimState × Bool :=
  if s.baseline_samples.length < 10 then (s, false)
  else
    ({ s with
        baseline_hr :=
          ((s.baseline_samples.map fun x => x.hr).sum) / (s.baseline_samples.length : ℝ)
        baseline_eda :=
          ((s.baseline_samples.map fun x => x.eda).sum) / (s.baseline_samples.length : ℝ)
        baseline_hrv :=
          ((s.baseline_samples.map fun x => x.hrv).sum) / (s.baseline_samples.length : ℝ)
        baseline_computed := true }, true)

/-- Embeds `sensors.reset_baseline_protocol` (sensors.py lines 416-428). -/
def reset_baseline_protocol (s : SimState) : SimState :=
  { s with
      baseline_computed := false
      baseline_samples := []
      current_time := 0
      baseline_hr := 75
      baseline_eda := 2
      baseline_hrv := 50 }

/-- Embeds `sensors._advance_time(dt)`. -/
def advance_time (s : SimState) (dt : ℚ) : SimState :=
  { s with current_time := s.current_time + dt }

/-- Embeds `sensors._reset_time`. -/
def reset_time (s : SimState) : SimState :=
  { s with current_time := 0 }

/-- Embeds `sensors.set_scenario` with a valid name (invalid strings raise and
change nothing; the `Scenario` type carries exactly the valid names). -/
def set_scenario (s : SimState) (sc : Scenario) : SimState :=
  { s with scenario := sc }

/-- Embeds `sensors.is_baseline_protocol_complete`. -/
def is_baseline_protocol_complete (s : SimState) : Bool :=
  240 ≤ s.current_time && s.baseline_computed

/-- Embeds `sensors.get_hr`: compute the clamped HR value for the current virtual
time and scenario, push it onto `_hr_history`, return it. -/
noncomputable def get_hr (s : SimState) (noise : ℝ) : SimState × ℝ :=
  let hr := get_hr_value s.scenario (s.current_time : ℝ) noise
  ({ s with hr_history := push_hr_history s.hr_history hr }, hr)

/-- Embeds `SimConnector.read` (sim_connector.py lines 26-40): the dict literal
evaluates `get_hr()`, then `get_eda()`, then `get_hrv()` in order, so the
HRV is computed from the history including the HR just pushed.  `nh`/`ne`
are the HR/EDA noise draws of this read. -/
noncomputable def connector_read (s : SimState) (nh ne : ℝ) : SimState × ℝ × ℝ × ℝ :=
  let r := get_hr s nh
  (r.1, r.2, get_eda_value s.scenario (s.current_time : ℝ) ne, get_hrv_of r.1.hr_history)

/-- Python's `round(x, ndigits)` modelled over the reals (round to the
nearest multiple of `10^-ndigits`; the claims below never depend on the
value produced or on tie-breaking, only on where rounding is applied). -/
noncomputable def py_round (ndigits : ℕ) (x : ℝ) : ℝ :=
  ((round (x * 10 ^ ndigits) : ℤ) : ℝ) / 10 ^ ndigits

/-- One element of `self.session_data` / a `"sample"` payload
(biofeedback_server.py lines 119-127).  The wall-clock ISO timestamp is an
opaque string supplied by the environment. -/
structure Sample where
  timestamp : String
  hr : ℝ
  eda : ℝ
  hrv : ℝ
  stress : ℝ
  scenario : Scenario

/-- The runtime streaming configuration of `BiofeedbackServer`:
`self.stream_frequency` (Hz) and `self.stream_interval` (seconds). -/
structure ServerConfig where
  stream_frequency : ℚ
  stream_interval : ℚ
deriving DecidableEq

/-- Subscribers are opaque connection handles; membership is by identity. -/
abbrev Subscriber := ℕ

/-- The mutable fields of a `BiofeedbackServer` instance relevant to the
claims, together with the `sensors.py` module state it drives. -/
structure ServerState where
  sim : SimState
  config : ServerConfig
  session_data : List Sample
  subscribers : List Subscriber

/-- Embeds `BiofeedbackServer.generate_biofeedback_sample`
(biofeedback_server.py lines 87-135), the tick operation.

Control flow embedded from the source:
1. `self.connector.read()` (the default `SimConnector`) is evaluated once,
   pushing one HR value onto the history.
2. `get_baseline_status()` is read (pure).
3. If `should_collect_baseline_sample()`: `collect_baseline_sample(hr, eda,
   hrv)` appends one baseline sample, and then line 107 evaluates
   `len(baseline_status['baseline_samples_collected'])`.  That dict entry is
   the **int** `len(_baseline_samples)` (sensors.py line 404), so `len()` of
   an int raises `TypeError`: the rest of the function body (stress
   computation, sample construction, clock advance, session-log append,
   return) never runs.  The raise is modelled by returning `none` together
   with the state as mutated so far.
4. Otherwise the stress index is computed with the default weights, the
   rounded `Sample` is built, the clock advances by `self.stream_interval`,
   and the sample is appended to `self.session_data` and returned. -/
noncomputable def generate_biofeedback_sample (st : ServerState) (nh ne : ℝ)
    (ts : String) : ServerState × Option Sample :=
  let r := connector_read st.sim nh ne
  let sim1 := r.1
  let hr := r.2.1
  let eda := r.2.2.1
  let hrv := r.2.2.2
  if should_collect_baseline_sample sim1 then
    ({ st with sim := collect_baseline_sample sim1 hr eda hrv }, none)
  else
    let stress := compute_stress_index hr eda hrv (33/100) (33/100) (34/100)
    let sample : Sample :=
      ⟨ts, py_round 1 hr, py_round 3 eda, py_round 1 hrv, py_round 1 stress, sim1.scenario⟩
    ({ st with
        sim := advance_time sim1 st.config.stream_interval
        session_data := st.session_data ++ [sample] }, some sample)

/-- Responses of the `set_frequency` arm of
`BiofeedbackServer.handle_client_message` (lines 204-240). -/
inductive FreqResponse
  | frequency_changed (old_hz new_hz interval : ℚ)
  | err (rejected_hz current_hz : ℚ)
deriving DecidableEq

/-- The `set_frequency` command arm (biofeedback_server.py lines 204-240)
for a decodable payload whose `hz` field, when present, is numeric:
`hz = float(request.get("hz", self.stream_frequency))`; out-of-range values
produce an error response naming the rejected value and the current
frequency and leave the config untouched; in-range values update both
config fields and produce `frequency_changed`. -/
def handle_set_frequency (cfg : ServerConfig) (hz? : Option ℚ) :
    ServerConfig × FreqResponse :=
  let hz := hz?.getD cfg.stream_frequency
  if hz < 1/10 ∨ hz > 50 then
    (cfg, .err hz cfg.stream_frequency)
  else
    (⟨hz, 1 / hz⟩, .frequency_changed cfg.stream_frequency hz (1 / hz))

/-- The broadcast payload built in `broadcast_to_subscribers` (lines
337-347): the sample plus `server_info` (current frequency, subscriber
count).  All subscribers of one pass are sent this one value
(`json.dumps` is applied once, before the fan-out loop). -/
structure StreamMessage where
  sample : Sample
  frequency_hz : ℚ
  connected_clients : ℕ

/-- The fan-out loop of `broadcast_to_subscribers` (lines 350-359): iterate
over the snapshot `self.subscribers.copy()`, attempt one `send(message)`
per subscriber, and accumulate into `disconnected_clients` exactly those
whose send raised.  `fails w = true` models the send to `w` raising.
Returns (the list of send attempts as (subscriber, message) pairs, the
collected disconnected subscribers). -/
def fanout_pass {α : Type} : List Subscriber → α → (Subscriber → Bool) →
    List (Subscriber × α) × List Subscriber
  | [], _, _ => ([], [])
  | w :: rest, msg, fails =>
    let r := fanout_pass rest msg fails
    ((w, msg) :: r.1, if fails w then w :: r.2 else r.2)

/-- The prune loop of `broadcast_to_subscribers` (lines 362-363): after the
fan-out pass completes, `self.subscribers.discard(w)` for every collected
disconnected client. -/
def prune (registry disconnected : List Subscriber) : List Subscriber :=
  registry.filter fun w => !(disconnected.contains w)

/-- One iteration of the `while self.running` loop of
`BiofeedbackServer.broadcast_to_subscribers` (lines 331-369):
* if `self.subscribers` is empty the body is skipped and the loop sleeps
  `self.stream_interval` (returned as the third component);
* otherwise one tick runs; if it raises (see
  `generate_biofeedback_sample`) the exception propagates out of the loop —
  no sends, no sleep (third component `none`);
* otherwise the stream message is built once, fanned out to the snapshot,
  failing subscribers are pruned afterwards, and the loop sleeps one
  interval.
Second component: the send attempts of the iteration. -/
noncomputable def broadcast_cycle (st : ServerState) (nh ne : ℝ) (ts : String)
    (fails : Subscriber → Bool) :
    ServerState × List (Subscriber × StreamMessage) × Option ℚ :=
  if st.subscribers.isEmpty then
    (st, [], some st.config.stream_interval)
  else
    let g := generate_biofeedback_sample st nh ne ts
    match g.2 with
    | none => (g.1, [], none)
    | some sample =>
      let msg : StreamMessage :=
        ⟨sample, st.config.stream_frequency, st.subscribers.length⟩
      let fp := fanout_pass st.subscribers msg fails
      ({ g.1 with subscribers := prune g.1.subscribers fp.2 }, fp.1,
        some g.1.config.stream_interval)

/-- The operations of the repository that touch the baseline-protocol
globals (`_baseline_computed`, `_baseline_hr/_baseline_eda/_baseline_hrv`,
`_baseline_samples`) or the virtual clock: every mutator of these globals
in `sensors.py` is one of the constructors below (the remaining functions
of the module only read them). -/
inductive BaselineOp
  | collect (hr eda hrv : ℝ)
  | compute
  | reset
  | advance (dt : ℚ)
  | resetTime
  | setScenario (sc : Scenario)

/-- Apply one baseline-protocol-relevant operation to the module state. -/
noncomputable def apply_op (s : SimState) : BaselineOp → SimState
  | .collect hr eda hrv => collect_baseline_sample s hr eda hrv
  | .compute => (compute_baseline_values s).1
  | .reset => reset_baseline_protocol s
  | .advance dt => advance_time s dt
  | .resetTime => reset_time s
  | .setScenario sc => set_scenario s sc

/-- A fresh `sensors.py` module state advanced to virtual time 180 s (the
first instant of the baseline window), baseline not yet computed: the
state reached from a reset simulation by `_advance_time(180)`. -/
def windowSim : SimState :=
  ⟨180, .baseline, [], false, 75, 2, 50, []⟩

/-- A server over `windowSim` with the default configuration
(`stream_frequency=0.167` Hz, `stream_interval = 1/0.167`), empty session
log and no subscribers. -/
def windowServer : ServerState :=
  ⟨windowSim, ⟨167/1000, 1000/167⟩, [], []⟩

/-- A module state that has completed the baseline protocol:
virtual time 240 s, baseline computed. -/
def computedSim : SimState :=
  ⟨240, .baseline, [], true, 75, 2, 50, []⟩

/-- A module state 5 s into the baseline window holding ten identical
collected samples (hr 75, eda 2, hrv 50), baseline not yet computed. -/
def tenSampleSim : SimState :=
  ⟨185, .baseline, [], false, 75, 2, 50, List.replicate 10 ⟨185, 75, 2, 50⟩⟩

/-!  ## Theorems  -/

/-- C8: `compute_stress_index` equals
`100 * (w_hr * norm_hr + w_eda * norm_eda + w_hrv * norm_hrv)` with
`norm_hr = clamp((hr-45)/135, 0, 1)`, `norm_eda = clamp(eda/10, 0, 1)`,
`norm_hrv = clamp(1 - (hrv-10)/190, 0, 1)` and no renormalization of the
weights, and for inputs within the documented physiological ranges
(HR 45-180, EDA 0-10, HRV 10-200) the output with the default weights
0.33/0.33/0.34 lies in [0, 100]. -/
theorem compute_stress_index_spec (hr eda hrv w_hr w_eda w_hrv : ℝ) :
    compute_stress_index hr eda hrv w_hr w_eda w_hrv =
      100 * (w_hr * clamp ((hr - 45) / 135) 0 1 + w_eda * clamp (eda / 10) 0 1 +
        w_hrv * clamp (1 - (hrv - 10) / 190) 0 1) ∧
    (45 ≤ hr → hr ≤ 180 → 0 ≤ eda → eda ≤ 10 → 10 ≤ hrv → hrv ≤ 200 →
      0 ≤ compute_stress_index hr eda hrv 0.33 0.33 0.34 ∧
      compute_stress_index hr eda hrv 0.33 0.33 0.34 ≤ 100) := by
  have hb : ∀ v : ℝ, 0 ≤ clamp v 0 1 ∧ clamp v 0 1 ≤ 1 := fun v =>
    ⟨le_clamp v 0 1, clamp_le (by norm_num)⟩
  constructor
  · simp only [compute_stress_index]
    norm_num
    ring
  · intro _ _ _ _ _ _
    obtain ⟨h1, h2⟩ := hb ((hr - 45) / (180 - 45))
    obtain ⟨h3, h4⟩ := hb (eda / 10)
    obtain ⟨h5, h6⟩ := hb (1 - (hrv - 10) / (200 - 10))
    simp only [compute_stress_index]
    constructor <;> nlinarith

/-- C8 witness: concrete in-range inputs (hr 75, eda 2, hrv 50). -/
theorem compute_stress_index_spec_witness :
    0 ≤ compute_stress_index 75 2 50 0.33 0.33 0.34 ∧
    compute_stress_index 75 2 50 0.33 0.33 0.34 ≤ 100 :=
  (compute_stress_index_spec 75 2 50 0.33 0.33 0.34).2 (by norm_num) (by norm_num)
    (by norm_num) (by norm_num) (by norm_num) (by norm_num)

/-- C7: for every scenario, every virtual time `t ≥ 0` and any realised
noise draws, `get_hr` returns a value in [50, 180] and `get_eda` a value
in [0.1, 10] (both functions end in a clamp to those bounds). -/
theorem signal_bounds (sc : Scenario) (t nh ne : ℝ) (_ht : 0 ≤ t) :
    (50 ≤ get_hr_value sc t nh ∧ get_hr_value sc t nh ≤ 180) ∧
    (0.1 ≤ get_eda_value sc t ne ∧ get_eda_value sc t ne ≤ 10) := by
  refine ⟨⟨?_, ?_⟩, ?_, ?_⟩
  · simp only [get_hr_value]; exact le_clamp _ _ _
  · simp only [get_hr_value]; exact clamp_le (by norm_num)
  · simp only [get_eda_value]; exact le_clamp _ _ _
  · simp only [get_eda_value]; exact clamp_le (by norm_num)

/-- C7 witness: the baseline scenario at time 0 with zero noise. -/
theorem signal_bounds_witness :
    (50 ≤ get_hr_value .baseline 0 0 ∧ get_hr_value .baseline 0 0 ≤ 180) ∧
    (0.1 ≤ get_eda_value .baseline 0 0 ∧ get_eda_value .baseline 0 0 ≤ 10) :=
  signal_bounds .baseline 0 0 0 le_rfl

/-- C3: a `set_frequency` command with numeric `hz` outside [0.1, 50.0]
leaves the configuration unchanged and produces an error carrying the
rejected value and the current frequency; with `hz` inside the range it
sets `stream_frequency` to `hz`, `stream_interval` to `1/hz`, and produces
`frequency_changed`. -/
theorem set_frequency_spec (cfg : ServerConfig) (hz : ℚ) :
    (hz < 1/10 ∨ hz > 50 →
      handle_set_frequency cfg (some hz) = (cfg, .err hz cfg.stream_frequency)) ∧
    (1/10 ≤ hz → hz ≤ 50 →
      handle_set_frequency cfg (some hz) =
        (⟨hz, 1 / hz⟩, .frequency_changed cfg.stream_frequency hz (1 / hz))) := by
  constructor
  · intro h
    simp only [handle_set_frequency, Option.getD_some]
    rw [if_pos h]
  · intro h1 h2
    have h : ¬(hz < 1/10 ∨ hz > 50) := by
      push_neg
      constructor <;> linarith
    simp only [handle_set_frequency, Option.getD_some]
    rw [if_neg h]

/-- C3 witness: rejection of 60 Hz and acceptance of 1 Hz on the default
configuration. -/
theorem set_frequency_spec_witness :
    handle_set_frequency ⟨167/1000, 1000/167⟩ (some 60) =
      (⟨167/1000, 1000/167⟩, .err 60 (167/1000)) ∧
    handle_set_frequency ⟨167/1000, 1000/167⟩ (some 1) =
      (⟨1, 1/1⟩, .frequency_changed (167/1000) 1 (1/1)) :=
  ⟨(set_frequency_spec ⟨167/1000, 1000/167⟩ 60).1 (Or.inr (by norm_num)),
   (set_frequency_spec ⟨167/1000, 1000/167⟩ 1).2 (by norm_num) (by norm_num)⟩

/-- C10: a decodable `set_frequency` payload without an `hz` field makes
the dispatcher substitute the current frequency for `hz`; on a
configuration satisfying the ServerConfig invariants (frequency in
[0.1, 50], interval = 1/frequency) the config is left unchanged and the
response is `frequency_changed` with `old_frequency_hz` equal to
`new_frequency_hz`, not an error. -/
theorem set_frequency_missing_hz (cfg : ServerConfig)
    (hlo : 1/10 ≤ cfg.stream_frequency) (hhi : cfg.stream_frequency ≤ 50)
    (hinv : cfg.stream_interval = 1 / cfg.stream_frequency) :
    handle_set_frequency cfg none =
      (cfg, .frequency_changed cfg.stream_frequency cfg.stream_frequency
        cfg.stream_interval) := by
  obtain ⟨f, i⟩ := cfg
  simp only at hlo hhi hinv
  have h : ¬(f < 1/10 ∨ f > 50) := by
    push_neg
    constructor <;> linarith
  simp only [handle_set_frequency, Option.getD_none]
  rw [if_neg h, hinv]

/-- C10 witness: a 1 Hz configuration. -/
theorem set_frequency_missing_hz_witness :
    handle_set_frequency ⟨1, 1⟩ none = (⟨1, 1⟩, .frequency_changed 1 1 1) :=
  set_frequency_missing_hz ⟨1, 1⟩ (by norm_num) (by norm_num) (by norm_num)

/-- C6: `get_hrv` returns exactly 50.0 when fewer than 2 HR samples are in
the history; otherwise it returns the population standard deviation of the
absolute differences of consecutive RR intervals (RR = 60000/hr), clamped
to [10, 200].  (`get_hrv_of` is a pure function of the history contents,
so its result is deterministic in them by construction.) -/
theorem get_hrv_spec (h : List ℝ) :
    (h.length < 2 → get_hrv_of h = 50) ∧
    (2 ≤ h.length →
      get_hrv_of h =
        clamp (popStdDev (List.zipWith (fun a b => |b - a|)
          (h.map fun x => 60000 / x) ((h.map fun x => 60000 / x).tail))) 10 200 ∧
      10 ≤ get_hrv_of h ∧ get_hrv_of h ≤ 200) := by
  constructor
  · intro hlt
    simp only [get_hrv_of]
    rw [if_pos hlt]
  · intro h2
    have hlt : ¬h.length < 2 := not_lt.mpr h2
    have hlen : (List.zipWith (fun a b : ℝ => |b - a|)
        (h.map fun x => 60000 / x) ((h.map fun x => 60000 / x).tail)).length =
        h.length - 1 := by
      simp [List.length_zipWith]
    have hne : ¬(List.zipWith (fun a b : ℝ => |b - a|)
        (h.map fun x => 60000 / x) ((h.map fun x => 60000 / x).tail)).length = 0 := by
      rw [hlen]
      omega
    have hval : get_hrv_of h =
        clamp (popStdDev (List.zipWith (fun a b => |b - a|)
          (h.map fun x => 60000 / x) ((h.map fun x => 60000 / x).tail))) 10 200 := by
      simp only [get_hrv_of, popStdDev]
      rw [if_neg hlt, if_neg hne]
    exact ⟨hval, by rw [hval]; exact le_clamp _ _ _,
      by rw [hval]; exact clamp_le (by norm_num)⟩

/-- C6 witness: a two-sample history. -/
theorem get_hrv_spec_witness :
    2 ≤ ([60, 80] : List ℝ).length ∧
    10 ≤ get_hrv_of [60, 80] ∧ get_hrv_of [60, 80] ≤ 200 :=
  ⟨by simp, ((get_hrv_spec [60, 80]).2 (by simp)).2⟩

/-- C5: `compute_baseline_values` with fewer than 10 collected samples
returns `False` and changes nothing; with at least 10 it returns `True`,
sets the three baseline values to the sample averages and marks the
baseline computed, and an immediately repeated call returns `True` with an
unchanged state (idempotent on success). -/
theorem compute_baseline_values_spec (s : SimState) :
    (s.baseline_samples.length < 10 → compute_baseline_values s = (s, false)) ∧
    (10 ≤ s.baseline_samples.length →
      (compute_baseline_values s).2 = true ∧
      (compute_baseline_values s).1.baseline_computed = true ∧
      (compute_baseline_values s).1.baseline_hr =
        ((s.baseline_samples.map fun x => x.hr).sum) / (s.baseline_samples.length : ℝ) ∧
      (compute_baseline_values s).1.baseline_eda =
        ((s.baseline_samples.map fun x => x.eda).sum) / (s.baseline_samples.length : ℝ) ∧
      (compute_baseline_values s).1.baseline_hrv =
        ((s.baseline_samples.map fun x => x.hrv).sum) / (s.baseline_samples.length : ℝ) ∧
      (compute_baseline_values s).1.baseline_samples = s.baseline_samples ∧
      compute_baseline_values (compute_baseline_values s).1 =
        ((compute_baseline_values s).1, true)) := by
  obtain ⟨t, sc, hh, bc, bhr, beda, bhrv, bs⟩ := s
  constructor
  · intro hlt
    simp only [compute_baseline_values]
    rw [if_pos hlt]
  · intro h10
    have hlt : ¬bs.length < 10 := not_lt.mpr h10
    simp only [compute_baseline_values]
    rw [if_neg hlt]
    refine ⟨rfl, rfl, rfl, rfl, rfl, rfl, ?_⟩
    simp only [compute_baseline_values]
    rw [if_neg hlt]

/-- C5 witness: ten identical collected samples. -/
theorem compute_baseline_values_spec_witness :
    10 ≤ tenSampleSim.baseline_samples.length ∧
    (compute_baseline_values tenSampleSim).2 = true ∧
    (compute_baseline_values tenSampleSim).1.baseline_computed = true :=
  ⟨by simp [tenSampleSim], ((compute_baseline_values_spec tenSampleSim).2 (by simp [tenSampleSim])).1,
    ((compute_baseline_values_spec tenSampleSim).2 (by simp [tenSampleSim])).2.1⟩

/-- C4: over every operation of the repository touching the baseline
globals, the `computed` flag flips false→true only through
`compute_baseline_values` and only when at least 10 samples have been
collected; once true it stays true under every operation except `reset`;
and `reset` clears the samples, clears the flag, restores the default
baseline values 75.0/2.0/50.0 and resets the virtual clock to 0. -/
theorem baseline_computed_invariant (s : SimState) (op : BaselineOp) :
    ((apply_op s op).baseline_computed = true →
      s.baseline_computed = true ∨
        (op = .compute ∧ 10 ≤ s.baseline_samples.length)) ∧
    (s.baseline_computed = true → op ≠ .reset →
      (apply_op s op).baseline_computed = true) ∧
    apply_op s .reset =
      { s with baseline_computed := false, baseline_samples := [],
               current_time := 0, baseline_hr := 75, baseline_eda := 2,
               baseline_hrv := 50 } := by
  refine ⟨?_, ?_, rfl⟩
  · cases op with
    | compute =>
      by_cases hlt : s.baseline_samples.length < 10
      · intro hpost
        left
        have : (compute_baseline_values s).1 = s := by
          simp only [compute_baseline_values]
          rw [if_pos hlt]
        simpa [apply_op, this] using hpost
      · intro _
        exact Or.inr ⟨rfl, le_of_not_lt hlt⟩
    | collect hr eda hrv => intro hpost; left; simpa [apply_op, collect_baseline_sample] using hpost
    | reset => intro hpost; simp [apply_op, reset_baseline_protocol] at hpost
    | advance dt => intro hpost; left; simpa [apply_op, advance_time] using hpost
    | resetTime => intro hpost; left; simpa [apply_op, reset_time] using hpost
    | setScenario sc => intro hpost; left; simpa [apply_op, set_scenario] using hpost
  · intro hpre hne
    cases op with
    | compute =>
      by_cases hlt : s.baseline_samples.length < 10
      · have : (compute_baseline_values s).1 = s := by
          simp only [compute_baseline_values]
          rw [if_pos hlt]
        simpa [apply_op, this] using hpre
      · simp only [apply_op, compute_baseline_values]
        rw [if_neg hlt]
    | collect hr eda hrv => simpa [apply_op, collect_baseline_sample] using hpre
    | reset => exact absurd rfl hne
    | advance dt => simpa [apply_op, advance_time] using hpre
    | resetTime => simpa [apply_op, reset_time] using hpre
    | setScenario sc => simpa [apply_op, set_scenario] using hpre

/-- C4 witness: a completed protocol state survives a clock advance with
the flag intact. -/
theorem baseline_computed_invariant_witness :
    (apply_op computedSim (.advance 1)).baseline_computed = true :=
  (baseline_computed_invariant computedSim (.advance 1)).2.1 rfl
    (fun hcontra => BaselineOp.noConfusion hcontra)

/-- The send attempts of a fan-out pass are exactly one attempt of the
same message per snapshot member, independently of which sends fail. -/
theorem fanout_pass_fst {α : Type} (snap : List Subscriber) (msg : α)
    (fails : Subscriber → Bool) :
    (fanout_pass snap msg fails).1 = snap.map fun w => (w, msg) := by
  induction snap with
  | nil => rfl
  | cons w rest ih => simp [fanout_pass, ih]

/-- The disconnected set accumulated by a fan-out pass holds exactly the
snapshot members whose send failed. -/
theorem fanout_pass_snd {α : Type} (snap : List Subscriber) (msg : α)
    (fails : Subscriber → Bool) :
    (fanout_pass snap msg fails).2 = snap.filter fails := by
  induction snap with
  | nil => rfl
  | cons w rest ih =>
    by_cases hw : fails w <;> simp [fanout_pass, List.filter_cons, ih, hw]

/-- C2: in a fan-out pass over a snapshot of distinct subscribers, every
snapshot member receives exactly one send attempt of the identical
message regardless of failures elsewhere (the attempt list is
`snap.map (w, msg)`, independent of `fails`); the disconnected set is
exactly the subscribers whose send failed; and the prune step, applied
only after the full pass completes, leaves exactly the non-failing
subscribers in the registry. -/
theorem broadcast_fanout_spec {α : Type} (registry : List Subscriber) (msg : α)
    (fails : Subscriber → Bool) (hnd : registry.Nodup) :
    (fanout_pass registry msg fails).1 = (registry.map fun w => (w, msg)) ∧
    (∀ w ∈ registry,
      ((fanout_pass registry msg fails).1.countP fun p => p.1 == w) = 1) ∧
    (fanout_pass registry msg fails).2 = registry.filter fails ∧
    prune registry (fanout_pass registry msg fails).2 =
      registry.filter fun w => !(fails w) := by
  refine ⟨fanout_pass_fst registry msg fails, ?_, fanout_pass_snd registry msg fails, ?_⟩
  · intro w hw
    rw [fanout_pass_fst, List.countP_map]
    have : ((fun p : Subscriber × α => p.1 == w) ∘ fun u => (u, msg)) =
        fun u => u == w := rfl
    rw [this]
    exact List.count_eq_one_of_mem hnd hw
  · rw [fanout_pass_snd, prune]
    refine List.filter_congr ?_
    intro w hw
    by_cases hf : fails w
    · simp [List.contains, List.mem_filter, hw, hf]
    · simp [List.contains, List.mem_filter, hf]

/-- C2 witness: three subscribers, the middle one failing. -/
theorem broadcast_fanout_spec_witness :
    (fanout_pass [1, 2, 3] "m" (fun w => w == 2)).1 =
      [(1, "m"), (2, "m"), (3, "m")] ∧
    (fanout_pass [1, 2, 3] "m" (fun w => w == 2)).2 = [2] ∧
    prune [1, 2, 3] (fanout_pass [1, 2, 3] "m" (fun w => w == 2)).2 = [1, 3] := by
  have h := broadcast_fanout_spec [1, 2, 3] "m" (fun w => w == 2) (by decide)
  exact ⟨by rw [h.1]; rfl, by rw [h.2.2.1]; rfl, by rw [h.2.2.2]; rfl⟩

/-- C9: a broadcast-loop cycle that starts with an empty subscriber
registry generates no sample, changes no server or simulation state
(clock, HR history, baseline samples, session log all included in the
returned state being the input state), performs no sends, and still
sleeps one full stream interval. -/
theorem broadcast_idle_spec (st : ServerState) (nh ne : ℝ) (ts : String)
    (fails : Subscriber → Bool) (hempty : st.subscribers = []) :
    broadcast_cycle st nh ne ts fails = (st, [], some st.config.stream_interval) := by
  simp [broadcast_cycle, hempty]

/-- C9 witness: the default server with no subscribers. -/
theorem broadcast_idle_spec_witness :
    broadcast_cycle windowServer 0 0 "x" (fun _ => false) =
      (windowServer, [], some windowServer.config.stream_interval) :=
  broadcast_idle_spec windowServer 0 0 "x" (fun _ => false) rfl

/-- C1 (code bug): evaluation of `generate_biofeedback_sample` at a state
in the baseline window with the baseline not yet computed (a fresh server
at virtual time 180 s).  The tick collects exactly one baseline sample and
then raises `TypeError` at biofeedback_server.py line 107 (`len()` applied
to the int `baseline_status['baseline_samples_collected']`), so —
contradicting the claim — the virtual clock does not advance, no `Sample`
is appended to the session log, and none is returned. -/
theorem tick_baseline_window_typeerror :
    (generate_biofeedback_sample windowServer 0 0 "x").2 = none ∧
    (generate_biofeedback_sample windowServer 0 0 "x").1.sim.current_time =
      windowServer.sim.current_time ∧
    (generate_biofeedback_sample windowServer 0 0 "x").1.session_data =
      windowServer.session_data ∧
    (generate_biofeedback_sample windowServer 0 0 "x").1.sim.baseline_samples.length =
      windowServer.sim.baseline_samples.length + 1 := by
  have hcollect : should_collect_baseline_sample (connector_read windowServer.sim 0 0).1 = true := by
    simp [should_collect_baseline_sample, is_in_baseline_window, connector_read, get_hr,
      windowServer, windowSim]
    norm_num
  refine ⟨?_, ?_, ?_, ?_⟩ <;>
  · simp only [generate_biofeedback_sample]
    rw [if_pos hcollect]
    try simp [collect_baseline_sample, connector_read, get_hr, windowServer, windowSim]

end Biofeedback
